import Mathlib

/-
Shallow embedding of the space-agent chat backend.

Source files embedded:
  src/backend/database_handlers/sq3_handler.py  (class ChatDatabase)
  src/backend/app.py                            (FastAPI endpoints over an
                                                 in-process dictionary)

Modelling conventions:
  - SQLite timestamps (Python datetime.now values) are modelled as Nat,
    supplied explicitly to each operation that reads the clock.
  - The two SQLite tables are lists of rows kept in rowid (insertion)
    order; the AUTOINCREMENT id of the messages table is the list position.
  - Python sqlite3 does not enforce foreign keys unless the connection
    issues PRAGMA foreign_keys = ON, which _get_connection never does, so
    the embedded INSERT into messages succeeds for any session_id.
  - An SQL ORDER BY on a non-unique key does not promise a deterministic
    order between tied rows, so queries with an ORDER BY are embedded as
    decidable admissibility relations between the store and an output list
    (the output is a permutation of the selected rows that is sorted by
    the ORDER BY key).
-/

namespace SpaceAgent

/-! ## Storage layer: data model (tables of sq3_handler.py) -/

/-- Row of the sessions table: session_id TEXT PRIMARY KEY,
created_at TIMESTAMP NOT NULL, updated_at TIMESTAMP NOT NULL. -/
structure SessionRow where
  session_id : String
  created_at : Nat
  updated_at : Nat
deriving DecidableEq, Repr

/-- Row of the messages table: session_id TEXT NOT NULL, role TEXT NOT NULL,
content TEXT NOT NULL, timestamp TIMESTAMP NOT NULL.  The AUTOINCREMENT id
is the position in the store's list. -/
structure MessageRow where
  session_id : String
  role : String
  content : String
  timestamp : Nat
deriving DecidableEq, Repr

/-- The SQLite store owned by ChatDatabase: both tables, rows in rowid
(insertion) order. -/
structure ChatDb where
  sessions : List SessionRow
  messages : List MessageRow
deriving DecidableEq, Repr

/-- The store right after init_db: both tables exist and are empty. -/
def emptyDb : ChatDb := ⟨[], []⟩

/-! ## Storage layer: operations of ChatDatabase -/

namespace ChatDatabase

/-- ChatDatabase.session_exists: SELECT 1 FROM sessions WHERE session_id = ?,
true iff a row was fetched. -/
def session_exists (db : ChatDb) (sid : String) : Bool :=
  db.sessions.any (fun s => s.session_id == sid)

/-- ChatDatabase.create_session: INSERT INTO sessions (session_id,
created_at, updated_at) VALUES (?, ?, ?) with created_at = updated_at = now.
The PRIMARY KEY on session_id makes the INSERT raise sqlite3.IntegrityError
when the id is already present; the handler rolls back and re-raises, so the
store is unchanged on that path. -/
def create_session (db : ChatDb) (sid : String) (now : Nat) :
    Except Unit (ChatDb × SessionRow) :=
  if session_exists db sid then
    Except.error ()
  else
    let row : SessionRow := ⟨sid, now, now⟩
    Except.ok ({ db with sessions := db.sessions ++ [row] }, row)

/-- Effect of the first statement of add_message:
INSERT INTO messages (session_id, role, content, timestamp) VALUES (?,?,?,?).
Foreign keys are not enforced (no PRAGMA foreign_keys = ON on the
connection), so the insert succeeds whether or not the session exists. -/
def insertMessageStmt (db : ChatDb) (sid role content : String) (now : Nat) :
    ChatDb :=
  { db with messages := db.messages ++ [⟨sid, role, content, now⟩] }

/-- Effect of the second statement of add_message:
UPDATE sessions SET updated_at = ? WHERE session_id = ?.  Updates the
matching row when there is one and affects no row otherwise. -/
def updateSessionStmt (db : ChatDb) (sid : String) (now : Nat) : ChatDb :=
  { db with
    sessions := db.sessions.map (fun s =>
      if s.session_id == sid then { s with updated_at := now } else s) }

/-- ChatDatabase.add_message, success path: insert the message row, bump
the session's updated_at to the same timestamp, commit, and return the
message dict. -/
def add_message (db : ChatDb) (sid role content : String) (now : Nat) :
    ChatDb × MessageRow :=
  (updateSessionStmt (insertMessageStmt db sid role content now) sid now,
   ⟨sid, role, content, now⟩)

/-- A connection in the middle of add_message's try block: the durable
store as of the last commit, and the in-transaction view the cursor
mutates. -/
structure Conn where
  committed : ChatDb
  tx : ChatDb
deriving DecidableEq, Repr

/-- Opening a connection: the transaction view starts at the durable
store. -/
def beginTx (db : ChatDb) : Conn := ⟨db, db⟩

/-- conn.commit(): the transaction view becomes durable. -/
def commitTx (c : Conn) : ChatDb := c.tx

/-- conn.rollback() in the except branch: the transaction is discarded and
the durable store stands. -/
def rollbackTx (c : Conn) : ChatDb := c.committed

/-- Where, if anywhere, execution of add_message's try block raises. -/
inductive FailPoint
  | noFail
  | failInsert
  | failUpdate
  | failCommit
deriving DecidableEq, Repr

/-- ChatDatabase.add_message with an explicit failure oracle: each
statement of the try block may raise, and the except branch rolls the
transaction back before re-raising.  FailPoint.noFail is the code's
success path (add_message). -/
def add_message_run (fp : FailPoint) (db : ChatDb)
    (sid role content : String) (now : Nat) :
    ChatDb × Option MessageRow :=
  let c0 := beginTx db
  match fp with
  | .noFail =>
      let c2 := { c0 with
        tx := updateSessionStmt (insertMessageStmt c0.tx sid role content now) sid now }
      (commitTx c2, some ⟨sid, role, content, now⟩)
  | .failInsert =>
      (rollbackTx c0, none)
  | .failUpdate =>
      let c1 := { c0 with tx := insertMessageStmt c0.tx sid role content now }
      (rollbackTx c1, none)
  | .failCommit =>
      let c2 := { c0 with
        tx := updateSessionStmt (insertMessageStmt c0.tx sid role content now) sid now }
      (rollbackTx c2, none)

/-- The rows SELECT ... FROM messages WHERE session_id = ? selects, in
rowid order. -/
def sessionMessages (db : ChatDb) (sid : String) : List MessageRow :=
  db.messages.filter (fun m => m.session_id == sid)

/-- ChatDatabase.get_messages: SELECT role, content, timestamp FROM
messages WHERE session_id = ? ORDER BY timestamp ASC.  The ORDER BY key is
not unique and no secondary key is given, so SQLite promises only that the
output is the selected rows in some order that is nondecreasing in
timestamp; this relation holds of exactly the outputs the query may
return. -/
def get_messages_admits (db : ChatDb) (sid : String)
    (out : List MessageRow) : Prop :=
  out.Perm (sessionMessages db sid) ∧
    out.Sorted (fun a b => a.timestamp ≤ b.timestamp)

instance (db : ChatDb) (sid : String) (out : List MessageRow) :
    Decidable (get_messages_admits db sid out) := by
  unfold get_messages_admits List.Sorted
  infer_instance

/-- ChatDatabase.delete_session: DELETE FROM messages WHERE session_id = ?,
then DELETE FROM sessions WHERE session_id = ?, then commit.  The returned
Bool is cursor.rowcount > 0 read after the second DELETE, i.e. whether a
session row was removed. -/
def delete_session (db : ChatDb) (sid : String) : ChatDb × Bool :=
  let db1 : ChatDb :=
    { db with messages := db.messages.filter (fun m => !(m.session_id == sid)) }
  let db2 : ChatDb :=
    { db1 with sessions := db1.sessions.filter (fun s => !(s.session_id == sid)) }
  let rowcount := (db1.sessions.filter (fun s => s.session_id == sid)).length
  (db2, decide (rowcount > 0))

/-- One row of list_sessions' result: session metadata and the aggregated
message count. -/
structure SessionSummary where
  session_id : String
  created_at : Nat
  updated_at : Nat
  message_count : Nat
deriving DecidableEq, Repr

/-- The summary the LEFT JOIN / COUNT(m.id) / GROUP BY s.session_id query
produces for one session row: COUNT(m.id) counts the joined message rows,
and is 0 when the LEFT JOIN matched none. -/
def summaryOf (db : ChatDb) (s : SessionRow) : SessionSummary :=
  ⟨s.session_id, s.created_at, s.updated_at, (sessionMessages db s.session_id).length⟩

/-- ChatDatabase.list_sessions: one summary per session row, ORDER BY
s.updated_at DESC.  As with get_messages, the ORDER BY key is not unique,
so this relation holds of exactly the outputs the query may return. -/
def list_sessions_admits (db : ChatDb) (out : List SessionSummary) : Prop :=
  out.Perm (db.sessions.map (summaryOf db)) ∧
    out.Sorted (fun a b => b.updated_at ≤ a.updated_at)

instance (db : ChatDb) (out : List SessionSummary) :
    Decidable (list_sessions_admits db out) := by
  unfold list_sessions_admits List.Sorted
  infer_instance

/-- ChatDatabase.get_session: SELECT session_id, created_at, updated_at
FROM sessions WHERE session_id = ?, None when no row matches. -/
def get_session (db : ChatDb) (sid : String) : Option SessionRow :=
  db.sessions.find? (fun s => s.session_id == sid)

/-! ### Traces of mutating storage operations

create_session, add_message and delete_session are the only ChatDatabase
operations that change the store; a reachable store is the result of
running a sequence of them from the store init_db leaves behind.  The
clock value each timestamped operation reads is carried in the
operation. -/

/-- One mutating ChatDatabase call together with the datetime.now() value
it observes (delete_session reads no clock). -/
inductive DbOp
  | create (sid : String) (now : Nat)
  | addMsg (sid role content : String) (now : Nat)
  | delete (sid : String)
deriving DecidableEq, Repr

/-- The store after one mutating call.  A create_session on an existing id
raises through rollback, leaving the store as it was; the caller sees the
exception but the store state is all that matters here. -/
def applyOp (db : ChatDb) : DbOp → ChatDb
  | .create sid now =>
      match create_session db sid now with
      | .ok (db2, _) => db2
      | .error _ => db
  | .addMsg sid role content now => (add_message db sid role content now).1
  | .delete sid => (delete_session db sid).1

/-- The clock value an operation observes, when it observes one. -/
def opTime : DbOp → Option Nat
  | .create _ now => some now
  | .addMsg _ _ _ now => some now
  | .delete _ => none

/-- The clock values a trace observes, in call order. -/
def opTimes (ops : List DbOp) : List Nat :=
  ops.filterMap opTime

/-- The store after a whole trace of mutating calls. -/
def runOps (db : ChatDb) (ops : List DbOp) : ChatDb :=
  ops.foldl applyOp db

/-- Every session row satisfies the updated_at/created_at invariant and
its updated_at is at most t; the induction strengthening used to carry the
invariant through a trace whose clock never goes backwards. -/
def sessionsBounded (db : ChatDb) (t : Nat) : Prop :=
  ∀ s ∈ db.sessions, s.created_at ≤ s.updated_at ∧ s.updated_at ≤ t

end ChatDatabase

/-! ## API layer: app.py

app.py keeps all chat state in the in-process dictionary chat_sessions and
serves four endpoints over it; it imports nothing from
database_handlers and performs no ChatDatabase call.  The SQLite store is
carried in the state so that this frame fact is statable. -/

/-- One entry of a session's "messages" list in app.py: a dict with keys
role, content, timestamp. -/
structure ApiMessage where
  role : String
  content : String
  timestamp : Nat
deriving DecidableEq, Repr

/-- The value stored in chat_sessions for one session id: created_at and
the message history list. -/
structure SessionData where
  created_at : Nat
  messages : List ApiMessage
deriving DecidableEq, Repr

/-- The process state app.py's handlers run against: the chat_sessions
dictionary (a Python dict, modelled as an association list in insertion
order), together with the SQLite store, which app.py never opens. -/
structure ApiState where
  chat_sessions : List (String × SessionData)
  db : ChatDb
deriving DecidableEq, Repr

/-- Python d[k] lookup / `k in d` membership, value part. -/
def dictFind (d : List (String × SessionData)) (k : String) :
    Option SessionData :=
  (d.find? (fun p => p.1 == k)).map Prod.snd

/-- Python `k in d`. -/
def dictContains (d : List (String × SessionData)) (k : String) : Bool :=
  d.any (fun p => p.1 == k)

/-- Python d[k] = v: replaces the value in place when the key is present,
otherwise appends the new entry (dicts preserve insertion order). -/
def dictInsert : List (String × SessionData) → String → SessionData →
    List (String × SessionData)
  | [], k, v => [(k, v)]
  | p :: rest, k, v =>
      if p.1 == k then (k, v) :: rest else p :: dictInsert rest k v

/-- Python `del d[k]`. -/
def dictErase (d : List (String × SessionData)) (k : String) :
    List (String × SessionData) :=
  d.filter (fun p => !(p.1 == k))

/-- Response model StartChatResponse of server_models.py. -/
structure StartChatResponse where
  session_id : String
  message : String
  created_at : Nat
deriving DecidableEq, Repr

/-- Response model ChatResponse of server_models.py. -/
structure ChatResponse where
  session_id : String
  user_message : String
  assistant_response : String
  timestamp : Nat
deriving DecidableEq, Repr

/-- Response model ChatHistory of server_models.py. -/
structure ChatHistory where
  session_id : String
  messages : List ApiMessage
deriving DecidableEq, Repr

/-- The reply generator invoked by the chat endpoint.  echo is the code's
inline stub: assistant_response = "Echo: " followed by the user message; it
cannot fail.  failing is modelled from the spec: the external Reply
Generator collaborator that the spec allows to fail
(ReplyGenerationFailed); no failing generator exists under src, so a
failure is injected at the point where the code computes
assistant_response. -/
inductive ReplyGen
  | echo
  | failing
deriving DecidableEq, Repr

/-- Running the generator on the user's message. -/
def runReplyGen : ReplyGen → String → Except Unit String
  | .echo, m => Except.ok ("Echo: " ++ m)
  | .failing, _ => Except.error ()

/-- What the chat endpoint surfaces to the caller.  httpNotFound is the
HTTPException(404) raise; unhandledException is an exception escaping the
handler body (the framework turns it into a generic 500 server error);
replyGenerationFailed is modelled from the spec: the dedicated error kind
the spec names for generator failures — no code in app.py produces it. -/
inductive ChatOutcome
  | ok (resp : ChatResponse)
  | httpNotFound (detail : String)
  | unhandledException
  | replyGenerationFailed
deriving DecidableEq, Repr

namespace App

/-- Endpoint POST /start_chat: generates session_id = str(uuid.uuid4())
(the generated token is passed in explicitly) and assigns
chat_sessions[session_id] = dict with created_at = now and messages = [].
There is no duplicate check, no retry and no error path: a colliding id
silently overwrites the existing entry. -/
def start_chat (st : ApiState) (genId : String) (now : Nat) :
    ApiState × StartChatResponse :=
  let st1 :=
    { st with chat_sessions := dictInsert st.chat_sessions genId ⟨now, []⟩ }
  (st1,
   ⟨genId,
    "Chat session created successfully. Use this session_id to send messages.",
    now⟩)

/-- Endpoint POST /chat/session_id, generic in the reply generator: 404
when the session id is not in chat_sessions; otherwise appends the user
message to the session's list, computes the assistant response, appends it
and returns a ChatResponse.  The handler has no try block around reply
generation, so a generator failure escapes after the user message was
already appended.  t1, t2, t3 are the three datetime.now() calls, in
order. -/
def chat_with_space_gen (gen : ReplyGen) (st : ApiState) (sid msg : String)
    (t1 t2 t3 : Nat) : ApiState × ChatOutcome :=
  match dictFind st.chat_sessions sid with
  | none =>
      (st, .httpNotFound
        ("Session " ++ sid ++ " not found. Please start a new chat session."))
  | some session =>
      let session1 :=
        { session with messages := session.messages ++ [⟨"user", msg, t1⟩] }
      let st1 :=
        { st with chat_sessions := dictInsert st.chat_sessions sid session1 }
      match runReplyGen gen msg with
      | .error _ => (st1, .unhandledException)
      | .ok reply =>
          let session2 :=
            { session1 with
              messages := session1.messages ++ [⟨"assistant", reply, t2⟩] }
          let st2 :=
            { st1 with
              chat_sessions := dictInsert st1.chat_sessions sid session2 }
          (st2, .ok ⟨sid, msg, reply, t3⟩)

/-- Endpoint POST /chat/session_id as the code ships it: the generator is
the inline echo stub. -/
def chat_with_space (st : ApiState) (sid msg : String) (t1 t2 t3 : Nat) :
    ApiState × ChatOutcome :=
  chat_with_space_gen .echo st sid msg t1 t2 t3

/-- Endpoint GET /chat/session_id/history: 404 when absent, otherwise the
stored message list; the state is read only. -/
def get_chat_history (st : ApiState) (sid : String) :
    ApiState × Except String ChatHistory :=
  match dictFind st.chat_sessions sid with
  | none => (st, Except.error ("Session " ++ sid ++ " not found."))
  | some session => (st, Except.ok ⟨sid, session.messages⟩)

/-- Endpoint DELETE /chat/session_id: 404 when absent, otherwise removes
the dictionary entry. -/
def delete_session (st : ApiState) (sid : String) :
    ApiState × Except String String :=
  if dictContains st.chat_sessions sid then
    ({ st with chat_sessions := dictErase st.chat_sessions sid },
     Except.ok ("Session " ++ sid ++ " deleted successfully"))
  else
    (st, Except.error ("Session " ++ sid ++ " not found."))

/-- The states the app.py process can reach: chat_sessions starts empty
(the SQLite store on disk is arbitrary) and evolves only through the four
endpoints, with the shipped echo generator. -/
inductive Reachable : ApiState → Prop
  | init (db : ChatDb) : Reachable ⟨[], db⟩
  | start (st : ApiState) (genId : String) (now : Nat) :
      Reachable st → Reachable (start_chat st genId now).1
  | chat (st : ApiState) (sid msg : String) (t1 t2 t3 : Nat) :
      Reachable st → Reachable (chat_with_space st sid msg t1 t2 t3).1
  | history (st : ApiState) (sid : String) :
      Reachable st → Reachable (get_chat_history st sid).1
  | delete (st : ApiState) (sid : String) :
      Reachable st → Reachable (delete_session st sid).1

end App

/-- Decides that a session's message list is a sequence of
user/assistant pairs: role user then role assistant with content
"Echo: " prepended to the user content, repeated; in particular the list
has even length and roles alternate starting with user. -/
def echoAlternating : List ApiMessage → Bool
  | [] => true
  | [_] => false
  | u :: a :: rest =>
      u.role == "user" && a.role == "assistant" &&
        a.content == "Echo: " ++ u.content && echoAlternating rest

/-! ## Helper lemmas -/

theorem dictFind_dictInsert (d : List (String × SessionData)) (k : String)
    (v : SessionData) : dictFind (dictInsert d k v) k = some v := by
  induction d with
  | nil => simp [dictInsert, dictFind, List.find?]
  | cons p rest ih =>
      by_cases hp : p.1 == k
      · simp [dictInsert, hp, dictFind, List.find?]
      · simpa [dictInsert, hp, dictFind, List.find?] using ih

theorem mem_dictInsert (d : List (String × SessionData)) (k : String)
    (v : SessionData) (p : String × SessionData) (hp : p ∈ dictInsert d k v) :
    p = (k, v) ∨ p ∈ d := by
  induction d with
  | nil =>
      simp [dictInsert] at hp
      exact Or.inl hp
  | cons q rest ih =>
      by_cases hq : q.1 == k
      · simp only [dictInsert, hq, if_pos] at hp
        rcases List.mem_cons.mp hp with h | h
        · exact Or.inl h
        · exact Or.inr (List.mem_cons_of_mem _ h)
      · simp only [dictInsert, hq, if_neg, Bool.not_eq_true] at hp
        rcases List.mem_cons.mp hp with h | h
        · exact Or.inr (h ▸ List.mem_cons_self _ _)
        · rcases ih h with h2 | h2
          · exact Or.inl h2
          · exact Or.inr (List.mem_cons_of_mem _ h2)

theorem dictInsert_dictInsert (d : List (String × SessionData)) (k : String)
    (v w : SessionData) : dictInsert (dictInsert d k v) k w = dictInsert d k w := by
  induction d with
  | nil => simp [dictInsert]
  | cons q rest ih =>
      by_cases hq : q.1 == k
      · simp [dictInsert, hq]
      · simp [dictInsert, hq, ih]

theorem dictFind_mem (d : List (String × SessionData)) (k : String)
    (v : SessionData) (h : dictFind d k = some v) : ∃ p ∈ d, p.2 = v := by
  unfold dictFind at h
  cases hf : d.find? (fun p => p.1 == k) with
  | none => rw [hf] at h; cases h
  | some p =>
      rw [hf] at h
      refine ⟨p, List.mem_of_find?_eq_some hf, ?_⟩
      simpa using h

theorem echoAlternating_append_pair (l : List ApiMessage) (m : String)
    (t1 t2 : Nat) (h : echoAlternating l = true) :
    echoAlternating
      (l ++ [⟨"user", m, t1⟩, ⟨"assistant", "Echo: " ++ m, t2⟩]) = true := by
  induction l using echoAlternating.induct with
  | case1 => simp [echoAlternating]
  | case2 x => simp [echoAlternating] at h
  | case3 u a rest ih =>
      simp only [echoAlternating, Bool.and_eq_true] at h
      simp only [List.cons_append, echoAlternating, Bool.and_eq_true]
      exact ⟨⟨⟨h.1.1.1, h.1.1.2⟩, h.1.2⟩, ih h.2⟩

theorem echoAlternating_length_even (l : List ApiMessage)
    (h : echoAlternating l = true) : l.length % 2 = 0 := by
  induction l using echoAlternating.induct with
  | case1 => rfl
  | case2 x => simp [echoAlternating] at h
  | case3 u a rest ih =>
      simp only [echoAlternating, Bool.and_eq_true] at h
      have := ih h.2
      simp only [List.length_cons]
      omega

theorem get_chat_history_state (st : ApiState) (sid : String) :
    (App.get_chat_history st sid).1 = st := by
  unfold App.get_chat_history
  cases dictFind st.chat_sessions sid <;> rfl

/-- Every session list in the dictionary of a reachable app state is a
sequence of user/assistant echo pairs. -/
theorem reachable_echoAlternating (st : ApiState) (h : App.Reachable st) :
    ∀ p ∈ st.chat_sessions, echoAlternating p.2.messages = true := by
  induction h with
  | init db => intro p hp; cases hp
  | start st genId now _ ih =>
      intro p hp
      simp only [App.start_chat] at hp
      rcases mem_dictInsert _ _ _ _ hp with rfl | hmem
      · rfl
      · exact ih p hmem
  | chat st sid msg t1 t2 t3 _ ih =>
      intro p hp
      unfold App.chat_with_space App.chat_with_space_gen at hp
      cases hfind : dictFind st.chat_sessions sid with
      | none =>
          rw [hfind] at hp
          exact ih p hp
      | some session =>
          rw [hfind] at hp
          simp only [runReplyGen] at hp
          rw [dictInsert_dictInsert] at hp
          rcases mem_dictInsert _ _ _ _ hp with rfl | hmem
          · obtain ⟨q, hq, hq2⟩ := dictFind_mem _ _ _ hfind
            have halt : echoAlternating session.messages = true := by
              rw [← hq2]; exact ih q hq
            have h2 := echoAlternating_append_pair session.messages msg t1 t2 halt
            rw [List.append_assoc]
            exact h2
          · exact ih p hmem
  | history st sid _ ih =>
      rw [get_chat_history_state]
      exact ih
  | delete st sid _ ih =>
      intro p hp
      unfold App.delete_session at hp
      by_cases hc : dictContains st.chat_sessions sid
      · simp only [hc, if_pos] at hp
        exact ih p (List.mem_of_mem_filter hp)
      · simp only [hc, if_neg, Bool.not_eq_true] at hp
        exact ih p hp

theorem sessionsBounded_mono (db : ChatDb) (t t2 : Nat) (h : t ≤ t2)
    (hdb : ChatDatabase.sessionsBounded db t) :
    ChatDatabase.sessionsBounded db t2 := by
  intro s hs
  exact ⟨(hdb s hs).1, le_trans (hdb s hs).2 h⟩

theorem runOps_bounded (ops : List ChatDatabase.DbOp) (db : ChatDb) (t : Nat)
    (hdb : ChatDatabase.sessionsBounded db t)
    (hmono : List.Chain (· ≤ ·) t (ChatDatabase.opTimes ops)) :
    ∀ s ∈ (ChatDatabase.runOps db ops).sessions,
      s.created_at ≤ s.updated_at := by
  induction ops generalizing db t with
  | nil => intro s hs; exact (hdb s hs).1
  | cons op rest ih =>
      cases op with
      | create sid now =>
          simp only [ChatDatabase.opTimes, List.filterMap_cons,
            ChatDatabase.opTime, List.chain_cons] at hmono
          refine ih (ChatDatabase.applyOp db (.create sid now)) now ?_ hmono.2
          unfold ChatDatabase.applyOp ChatDatabase.create_session
          cases hex : ChatDatabase.session_exists db sid with
          | true =>
              simp only [hex, if_true, Bool.true_eq_false]
              exact sessionsBounded_mono db t now hmono.1 hdb
          | false =>
              simp only [hex, Bool.false_eq_true, if_false]
              intro s hs
              simp only [List.mem_append, List.mem_singleton] at hs
              rcases hs with hs | rfl
              · exact (sessionsBounded_mono db t now hmono.1 hdb) s hs
              · exact ⟨le_refl now, le_refl now⟩
      | addMsg sid role content now =>
          simp only [ChatDatabase.opTimes, List.filterMap_cons,
            ChatDatabase.opTime, List.chain_cons] at hmono
          refine ih _ now ?_ hmono.2
          unfold ChatDatabase.applyOp ChatDatabase.add_message
            ChatDatabase.updateSessionStmt ChatDatabase.insertMessageStmt
          intro s hs
          simp only [List.mem_map] at hs
          obtain ⟨s0, hs0, rfl⟩ := hs
          by_cases hsid : s0.session_id == sid
          · simp only [hsid, if_pos]
            exact ⟨le_trans (le_trans (hdb s0 hs0).1 (hdb s0 hs0).2) hmono.1,
              le_refl now⟩
          · simp only [hsid, Bool.false_eq_true, if_neg, Bool.not_eq_true]
            exact (sessionsBounded_mono db t now hmono.1 hdb) s0 hs0
      | delete sid =>
          simp only [ChatDatabase.opTimes, List.filterMap_cons,
            ChatDatabase.opTime] at hmono
          refine ih _ t ?_ hmono
          unfold ChatDatabase.applyOp ChatDatabase.delete_session
          intro s hs
          exact hdb s (List.mem_of_mem_filter hs)

theorem filter_length_pos_eq_any (l : List SessionRow) (p : SessionRow → Bool) :
    decide (0 < (l.filter p).length) = l.any p := by
  induction l with
  | nil => rfl
  | cons a t ih =>
      by_cases h : p a
      · simp [List.filter_cons, List.any_cons, h]
      · simp only [List.filter_cons, List.any_cons, h, Bool.false_eq_true,
          if_neg, Bool.not_eq_true, Bool.false_or]
        exact ih

theorem filter_not_filter_eq_nil (l : List MessageRow) (p : MessageRow → Bool) :
    (l.filter (fun m => !(p m))).filter p = [] := by
  induction l with
  | nil => rfl
  | cons a t ih =>
      cases hpa : p a
      · simp [List.filter_cons, hpa, ih]
      · simp [List.filter_cons, hpa, ih]

/-! ## Claims -/

/-- Claim C1, code bug: the spec requires AddMessage on a nonexistent
session id to fail with NotFound and persist nothing, but
ChatDatabase.add_message never checks session existence and the connection
never enables foreign-key enforcement, so on the empty store the call for
the absent id "missing" succeeds and persists an orphan message row. -/
theorem c1_add_message_orphan_row_persisted :
    ChatDatabase.session_exists emptyDb "missing" = false ∧
    ChatDatabase.add_message emptyDb "missing" "user" "x" 0 =
      (⟨[], [⟨"missing", "user", "x", 0⟩]⟩, ⟨"missing", "user", "x", 0⟩) :=
  ⟨rfl, rfl⟩

/-- Claim C2, code bug: get_messages orders by timestamp alone with no
secondary sort key, so for a session holding two messages that share a
timestamp the query also admits the reversed insertion order as an output;
tie-breaking is not deterministic by insertion order as the claim
requires. -/
theorem c2_get_messages_tie_not_insertion_order :
    ChatDatabase.get_messages_admits
        ⟨[⟨"s", 0, 0⟩],
          [⟨"s", "user", "first", 5⟩, ⟨"s", "assistant", "second", 5⟩]⟩ "s"
        [⟨"s", "assistant", "second", 5⟩, ⟨"s", "user", "first", 5⟩] ∧
      [⟨"s", "assistant", "second", 5⟩, ⟨"s", "user", "first", 5⟩] ≠
        ChatDatabase.sessionMessages
          ⟨[⟨"s", 0, 0⟩],
            [⟨"s", "user", "first", 5⟩, ⟨"s", "assistant", "second", 5⟩]⟩ "s" :=
  ⟨by decide, by decide⟩

/-- Claim C3, confirmed: for an existing session, add_message either
commits both of its effects — the message-row insert and the bump of the
session's updated_at to that message's timestamp — or, when any statement
of its transaction raises, rolls both back, leaving the store exactly as
it was; no failure point yields one effect without the other. -/
theorem c3_add_message_atomic (fp : ChatDatabase.FailPoint) (db : ChatDb)
    (sid role content : String) (now : Nat)
    (_h : ChatDatabase.session_exists db sid = true) :
    ChatDatabase.add_message_run fp db sid role content now =
        ((ChatDatabase.add_message db sid role content now).1,
          some (ChatDatabase.add_message db sid role content now).2) ∨
      ChatDatabase.add_message_run fp db sid role content now = (db, none) := by
  cases fp with
  | noFail => exact Or.inl rfl
  | failInsert => exact Or.inr rfl
  | failUpdate => exact Or.inr rfl
  | failCommit => exact Or.inr rfl

/-- Witness for C3: a concrete store with session "a", failing at the
UPDATE statement; the insert already executed in the transaction is rolled
back with it. -/
theorem c3_witness :
    ChatDatabase.session_exists ⟨[⟨"a", 0, 0⟩], []⟩ "a" = true ∧
    (ChatDatabase.add_message_run .failUpdate ⟨[⟨"a", 0, 0⟩], []⟩ "a" "user" "hi" 3 =
        ((ChatDatabase.add_message ⟨[⟨"a", 0, 0⟩], []⟩ "a" "user" "hi" 3).1,
          some (ChatDatabase.add_message ⟨[⟨"a", 0, 0⟩], []⟩ "a" "user" "hi" 3).2) ∨
      ChatDatabase.add_message_run .failUpdate ⟨[⟨"a", 0, 0⟩], []⟩ "a" "user" "hi" 3 =
        (⟨[⟨"a", 0, 0⟩], []⟩, none)) :=
  ⟨by decide,
   c3_add_message_atomic .failUpdate ⟨[⟨"a", 0, 0⟩], []⟩ "a" "user" "hi" 3 (by decide)⟩

/-- Claim C4, confirmed: every endpoint of app.py reads and writes only
the in-process chat_sessions dictionary; the SQLite store component of the
state is unchanged by each of start_chat, chat_with_space,
get_chat_history and delete_session. -/
theorem c4_endpoints_never_touch_db (st : ApiState)
    (genId sid1 sid2 sid3 msg : String) (now t1 t2 t3 : Nat) :
    (App.start_chat st genId now).1.db = st.db ∧
    (App.chat_with_space st sid1 msg t1 t2 t3).1.db = st.db ∧
    (App.get_chat_history st sid2).1.db = st.db ∧
    (App.delete_session st sid3).1.db = st.db := by
  refine ⟨rfl, ?_, ?_, ?_⟩
  · unfold App.chat_with_space App.chat_with_space_gen
    cases hf : dictFind st.chat_sessions sid1 with
    | none => rfl
    | some session => rfl
  · rw [get_chat_history_state]
  · unfold App.delete_session
    cases hc : dictContains st.chat_sessions sid3 <;> simp [hc]

/-- Claim C5, confirmed: any summary list that list_sessions may return
carries, for each listed session, a message_count equal to the length of
any message list get_messages may return for that same session id — zero
when the session has no messages, since COUNT over the LEFT JOIN and the
WHERE filter count the same rows. -/
theorem c5_message_count_matches_get_messages
    (db : ChatDb) (out : List ChatDatabase.SessionSummary)
    (s : ChatDatabase.SessionSummary) (msgs : List MessageRow)
    (hout : ChatDatabase.list_sessions_admits db out)
    (hs : s ∈ out)
    (hm : ChatDatabase.get_messages_admits db s.session_id msgs) :
    s.message_count = msgs.length := by
  obtain ⟨hperm, _⟩ := hout
  have hs2 : s ∈ db.sessions.map (ChatDatabase.summaryOf db) := hperm.subset hs
  obtain ⟨row, hrowmem, rfl⟩ := List.mem_map.mp hs2
  exact hm.1.length_eq.symm

/-- Witness for C5: one session with one message; the summary count and
the history length are both 1. -/
theorem c5_witness :
    ChatDatabase.list_sessions_admits ⟨[⟨"a", 1, 2⟩], [⟨"a", "user", "hi", 2⟩]⟩
        [⟨"a", 1, 2, 1⟩] ∧
    (⟨"a", 1, 2, 1⟩ : ChatDatabase.SessionSummary) ∈ [(⟨"a", 1, 2, 1⟩ : ChatDatabase.SessionSummary)] ∧
    ChatDatabase.get_messages_admits ⟨[⟨"a", 1, 2⟩], [⟨"a", "user", "hi", 2⟩]⟩
        (⟨"a", 1, 2, 1⟩ : ChatDatabase.SessionSummary).session_id [⟨"a", "user", "hi", 2⟩] ∧
    (⟨"a", 1, 2, 1⟩ : ChatDatabase.SessionSummary).message_count =
      [(⟨"a", "user", "hi", 2⟩ : MessageRow)].length :=
  ⟨by decide, by decide, by decide,
   c5_message_count_matches_get_messages
     ⟨[⟨"a", 1, 2⟩], [⟨"a", "user", "hi", 2⟩]⟩ [⟨"a", 1, 2, 1⟩] ⟨"a", 1, 2, 1⟩
     [⟨"a", "user", "hi", 2⟩] (by decide) (by decide) (by decide)⟩

/-- Counterexample for C6: on the existing session "s", a reply-generator
failure injected where the code computes assistant_response escapes the
handler as an unhandled exception — a generic server error, not the
ReplyGenerationFailed kind the claim names — while the user message is
already persisted. -/
theorem c6_counterexample :
    (App.chat_with_space_gen .failing ⟨[("s", ⟨0, []⟩)], emptyDb⟩ "s" "hi" 1 2 3).2 =
        ChatOutcome.unhandledException ∧
    ChatOutcome.unhandledException ≠ ChatOutcome.replyGenerationFailed ∧
    dictFind
        (App.chat_with_space_gen .failing
          ⟨[("s", ⟨0, []⟩)], emptyDb⟩ "s" "hi" 1 2 3).1.chat_sessions "s" =
      some ⟨0, [⟨"user", "hi", 1⟩]⟩ :=
  ⟨rfl, by decide, by decide⟩

/-- Claim C6 as amended, proved: for an existing session, when the reply
generator fails after the user message was appended, the user message
remains in the session's stored history (it is not rolled back) and the
failure surfaces to the caller as an unhandled server error; app.py has no
ReplyGenerationFailed error kind. -/
theorem c6_user_message_survives_generator_failure
    (st : ApiState) (sid msg : String) (t1 t2 t3 : Nat) (d : SessionData)
    (h : dictFind st.chat_sessions sid = some d) :
    (App.chat_with_space_gen .failing st sid msg t1 t2 t3).2 =
        ChatOutcome.unhandledException ∧
    dictFind
        (App.chat_with_space_gen .failing st sid msg t1 t2 t3).1.chat_sessions
        sid = some ⟨d.created_at, d.messages ++ [⟨"user", msg, t1⟩]⟩ := by
  unfold App.chat_with_space_gen
  rw [h]
  exact ⟨rfl, dictFind_dictInsert _ _ _⟩

/-- Witness for C6 as amended: the session "s" exists with an empty
history; after the failing call its history holds exactly the user
message. -/
theorem c6_witness :
    dictFind [("s", (⟨0, []⟩ : SessionData))] "s" = some ⟨0, []⟩ ∧
    ((App.chat_with_space_gen .failing ⟨[("s", ⟨0, []⟩)], emptyDb⟩ "s" "hi" 1 2 3).2 =
        ChatOutcome.unhandledException ∧
      dictFind
          (App.chat_with_space_gen .failing
            ⟨[("s", ⟨0, []⟩)], emptyDb⟩ "s" "hi" 1 2 3).1.chat_sessions "s" =
        some ⟨0, ([] : List ApiMessage) ++ [⟨"user", "hi", 1⟩]⟩) :=
  ⟨by decide,
   c6_user_message_survives_generator_failure ⟨[("s", ⟨0, []⟩)], emptyDb⟩ "s" "hi"
     1 2 3 ⟨0, []⟩ (by decide)⟩

/-- Counterexample for C7: when the generated identifier collides with an
existing session, start_chat performs no retry and surfaces nothing: it
returns the same colliding identifier, silently overwrites the existing
session with an empty one, and creates no session row in the SQLite store
(so CreateSession was never invoked). -/
theorem c7_counterexample :
    (App.start_chat ⟨[("a", ⟨0, [⟨"user", "x", 0⟩]⟩)], emptyDb⟩ "a" 5).2.session_id
        = "a" ∧
    dictFind
        (App.start_chat
          ⟨[("a", ⟨0, [⟨"user", "x", 0⟩]⟩)], emptyDb⟩ "a" 5).1.chat_sessions "a" =
      some ⟨5, []⟩ ∧
    (App.start_chat ⟨[("a", ⟨0, [⟨"user", "x", 0⟩]⟩)], emptyDb⟩ "a" 5).1.db.sessions
      = [] :=
  ⟨rfl, by decide, rfl⟩

/-- Claim C7 as amended, proved: start_chat installs the generated
identifier directly in the in-process dictionary with an empty history —
overwriting any colliding entry — returns that identifier, has no failure
path, and performs no storage-engine call, so neither DuplicateKey nor
StorageUnavailable can arise. -/
theorem c7_start_chat_inserts_directly (st : ApiState) (genId : String)
    (now : Nat) :
    (App.start_chat st genId now).2.session_id = genId ∧
    dictFind (App.start_chat st genId now).1.chat_sessions genId =
      some ⟨now, []⟩ ∧
    (App.start_chat st genId now).1.db = st.db :=
  ⟨rfl, dictFind_dictInsert _ _ _, rfl⟩

/-- Claim C8, confirmed: from the empty store, any trace of mutating
storage calls whose observed clock values never decrease leaves every
session row with updated_at at least created_at: create_session
establishes the invariant with created_at = updated_at = now, add_message
only moves updated_at forward to the new message's timestamp, and
delete_session only removes rows. -/
theorem c8_updated_at_ge_created_at (ops : List ChatDatabase.DbOp)
    (hmono : List.Chain (· ≤ ·) 0 (ChatDatabase.opTimes ops)) :
    ∀ s ∈ (ChatDatabase.runOps emptyDb ops).sessions,
      s.created_at ≤ s.updated_at :=
  runOps_bounded ops emptyDb 0 (fun _ hs => nomatch hs) hmono

/-- Witness for C8: create session "a" at time 1, then add a message at
time 2; the resulting row has created_at 1 and updated_at 2. -/
theorem c8_witness :
    List.Chain (· ≤ ·) 0 (ChatDatabase.opTimes
        [ChatDatabase.DbOp.create "a" 1,
          ChatDatabase.DbOp.addMsg "a" "user" "hi" 2]) ∧
    (⟨"a", 1, 2⟩ : SessionRow).created_at ≤ (⟨"a", 1, 2⟩ : SessionRow).updated_at :=
  ⟨List.Chain.cons (by decide) (List.Chain.cons (by decide) List.Chain.nil),
   c8_updated_at_ge_created_at
     [ChatDatabase.DbOp.create "a" 1, ChatDatabase.DbOp.addMsg "a" "user" "hi" 2]
     (List.Chain.cons (by decide) (List.Chain.cons (by decide) List.Chain.nil))
     ⟨"a", 1, 2⟩ (by decide)⟩

/-- Claim C9, confirmed: in every reachable app state, each session's
message list is a sequence of user/assistant pairs — even length, roles
alternating starting with user, each assistant content equal to "Echo: "
prepended to the preceding user content — since sessions are created with
an empty list and the chat endpoint, the only mutator, appends exactly one
such pair. -/
theorem c9_history_alternates (st : ApiState) (h : App.Reachable st)
    (sid : String) (d : SessionData) (hm : (sid, d) ∈ st.chat_sessions) :
    echoAlternating d.messages = true ∧ d.messages.length % 2 = 0 := by
  have h1 := reachable_echoAlternating st h (sid, d) hm
  exact ⟨h1, echoAlternating_length_even _ h1⟩

/-- Witness for C9: the state reached by start_chat then one chat call
holds session "a" with the history user "hi", assistant "Echo: hi". -/
theorem c9_witness :
    ("a", (⟨0, [⟨"user", "hi", 1⟩, ⟨"assistant", "Echo: hi", 2⟩]⟩ : SessionData)) ∈
        (App.chat_with_space (App.start_chat ⟨[], emptyDb⟩ "a" 0).1 "a" "hi"
          1 2 3).1.chat_sessions ∧
    (echoAlternating [⟨"user", "hi", 1⟩, ⟨"assistant", "Echo: hi", 2⟩] = true ∧
      ([(⟨"user", "hi", 1⟩ : ApiMessage),
        ⟨"assistant", "Echo: hi", 2⟩].length) % 2 = 0) :=
  ⟨by decide,
   c9_history_alternates _
     (App.Reachable.chat _ "a" "hi" 1 2 3
       (App.Reachable.start _ "a" 0 (App.Reachable.init emptyDb)))
     "a" ⟨0, [⟨"user", "hi", 1⟩, ⟨"assistant", "Echo: hi", 2⟩]⟩ (by decide)⟩

/-- Claim C10, confirmed: delete_session returns true exactly when a
session row with the id existed before the call, and it removes the
message rows bearing that id unconditionally, so orphan messages for an
absent session are deleted even on the false-returning path. -/
theorem c10_delete_session_contract (db : ChatDb) (sid : String) :
    (ChatDatabase.delete_session db sid).2 = ChatDatabase.session_exists db sid ∧
    (ChatDatabase.delete_session db sid).1.messages =
      db.messages.filter (fun m => !(m.session_id == sid)) ∧
    ChatDatabase.sessionMessages (ChatDatabase.delete_session db sid).1 sid = [] :=
  ⟨filter_length_pos_eq_any db.sessions (fun s => s.session_id == sid), rfl,
   filter_not_filter_eq_nil db.messages (fun m => m.session_id == sid)⟩

end SpaceAgent
